import Mathlib

/-!
Shallow embedding of the session execution and health-monitoring subsystem of
the `vibe` repository (src/vibe/session.py, src/vibe/session_monitor.py and the
session slice of src/vibe/orchestrator.py), together with theorems settling the
frozen claims about it.

Modelling conventions:
* Python `datetime` values are modelled as `Int` (seconds since an arbitrary
  epoch); `timedelta(minutes=m)` becomes `m * 60` seconds.  Every operation
  that calls `datetime.now()` in the source takes the current time as an
  explicit `now : Int` argument.
* `uuid`-generated session ids are passed in explicitly.
* Python lists are `List`, dicts with known shape are structures, and the
  untyped `context: dict[str, Any]` is modelled as `List (String × String)`
  (an association list stand-in for a JSON object; no modelled code inspects
  its contents).
* Fallible code is `Except PyExc`; an uncaught Python exception is `.error e`.
* The source field names `ai_agent_prefix` / `ai_agent_suffix` are rendered as
  `ai_agent_prefix_enabled` / `ai_agent_suffix_enabled`.
-/

namespace Vibe

/-- Python exception classes relevant to the modelled code paths. -/
inductive PyExc where
  | osError          -- e.g. PermissionError raised by open()
  | typeError        -- e.g. WorkflowFrame(**d) with unexpected keys
  | jsonDecodeError  -- json.JSONDecodeError
  | keyError
  | valueError
deriving DecidableEq, Repr

/-- Model of `config.SessionConfig` (pydantic model, both flags default True).
Source fields: `ai_agent_prefix`, `ai_agent_suffix`. -/
structure SessionConfig where
  ai_agent_prefix_enabled : Bool
  ai_agent_suffix_enabled : Bool
deriving DecidableEq, Repr

/-- Default `SessionConfig()`: both flags true. -/
def SessionConfig.default : SessionConfig := ⟨true, true⟩

/-- Model of `session.WorkflowFrame`: one workflow of the execution stack.
`current_step` is a Python int, modelled as `Int`. -/
structure WorkflowFrame where
  workflow_name : String
  steps : List String
  current_step : Int
  context : List (String × String)
deriving DecidableEq, Repr

/-- Python list indexing `l[i]` including negative indices; `none` models an
IndexError being raised. -/
def pyGetItem (l : List String) (i : Int) : Option String :=
  if 0 ≤ i then l.get? i.toNat
  else if 0 ≤ i + l.length then l.get? (i + l.length).toNat
  else none

/-- `WorkflowFrame.is_complete`: `current_step >= len(steps)`. -/
def WorkflowFrame.is_complete (f : WorkflowFrame) : Bool :=
  (f.steps.length : Int) ≤ f.current_step

/-- `WorkflowFrame.current_step_text`: `None` when complete, else
`steps[current_step]`. -/
def WorkflowFrame.current_step_text (f : WorkflowFrame) : Option String :=
  if f.is_complete then none else pyGetItem f.steps f.current_step

/-- `WorkflowFrame.advance()`: increment the cursor unless complete.  The
source mutates the frame and returns a bool; modelled as (bool, new frame). -/
def WorkflowFrame.advance (f : WorkflowFrame) : Bool × WorkflowFrame :=
  if ¬f.is_complete then (true, { f with current_step := f.current_step + 1 })
  else (false, f)

/-- Model of `session.WorkflowSession`.  `workflow_stack` keeps the Python
list order: the LAST element is the top of the stack (`stack[-1]`).
`session_config` has dataclass default `None`, hence `Option`. -/
structure WorkflowSession where
  session_id : String
  prompt : String
  workflow_stack : List WorkflowFrame
  created_at : Int
  last_accessed : Int
  session_config : Option SessionConfig
deriving DecidableEq, Repr

/-- Lower-case a string (Python `str.lower`, ASCII-faithful), as its
character list. -/
def lowerChars (s : String) : List Char := s.data.map Char.toLower

/-- Python `str.strip()`: drop leading and trailing whitespace. -/
def stripChars (l : List Char) : List Char :=
  ((l.dropWhile Char.isWhitespace).reverse.dropWhile Char.isWhitespace).reverse

namespace WorkflowSession

/-- `WorkflowSession.create`: one frame per (name, steps) tuple, in input
order, each starting at step 0 with empty context; `session_config or
SessionConfig()` normalizes a missing config to the default. -/
def create (session_id : String) (now : Int) (prompt : String)
    (initial_workflows : List (String × List String))
    (session_config : Option SessionConfig) : WorkflowSession :=
  { session_id := session_id
    prompt := prompt
    workflow_stack := initial_workflows.map fun p =>
      { workflow_name := p.1, steps := p.2, current_step := 0, context := [] }
    created_at := now
    last_accessed := now
    session_config := some (session_config.getD SessionConfig.default) }

/-- `current_frame`: top of the stack, i.e. `workflow_stack[-1]`. -/
def current_frame (s : WorkflowSession) : Option WorkflowFrame :=
  s.workflow_stack.getLast?

/-- `WorkflowSession.is_complete`: empty stack, or every frame complete. -/
def is_complete (s : WorkflowSession) : Bool :=
  s.workflow_stack.isEmpty || s.workflow_stack.all WorkflowFrame.is_complete

/-- Command indicator list of `_is_command_step`. -/
def command_indicators : List String :=
  ["run ", "execute ", "install ", "npm ", "pip ", "git ", "cd ", "mkdir ",
   "touch ", "curl ", "wget ", "docker ", "python ", "node ", "bun ",
   "yarn ", "pnpm ", "cargo ", "go ", "rustc "]

/-- `_is_command_step`: lower-cased, stripped step text starts with one of the
fixed command indicators. -/
def is_command_step (step_text : String) : Bool :=
  let step_lower := stripChars (lowerChars step_text)
  command_indicators.any fun cmd => cmd.data.isPrefixOf step_lower

/-- Fixed prefix wording for command-like steps. -/
def cmdPrefixText : String :=
  "AUTO-VIBE: Execute without interaction. Use quiet/yes flags. Report outcome concisely."

/-- Fixed prefix wording for non-command steps. -/
def verifyPrefixText : String :=
  "AUTO-VIBE: Verify and report status briefly."

/-- Fixed suffix reminder. -/
def reminderSuffixText : String :=
  "Remember: Analyze, Reflect, Plan, Execute"

/-- `_format_step_for_agent`: decorate step text according to the session
config; a blank step or an absent (`None`) config short-circuits to the raw
text. -/
def format_step_for_agent (s : WorkflowSession) (step_text : String)
    (is_command : Bool) : String :=
  if stripChars step_text.data = [] then step_text
  else
    match s.session_config with
    | none => step_text
    | some cfg =>
      let t1 :=
        if cfg.ai_agent_prefix_enabled then
          (if is_command then cmdPrefixText else verifyPrefixText)
            ++ "\n\n" ++ step_text
        else step_text
      if cfg.ai_agent_suffix_enabled then t1 ++ "\n\n" ++ reminderSuffixText
      else t1

/-- Record returned by `get_current_step` (a Python dict in the source). -/
structure StepInfo where
  workflow : String
  step_number : Int
  total_steps : Nat
  step_text : String
  is_command : Bool
  workflow_depth : Nat
deriving DecidableEq, Repr

/-- `get_current_step`: `None` when the stack is empty or the top frame is
complete; otherwise the step-info record (1-based step number, decorated
text). -/
def get_current_step (s : WorkflowSession) : Option StepInfo :=
  match s.current_frame with
  | none => none
  | some fr =>
    if fr.is_complete then none
    else
      let step_text := fr.current_step_text.getD ""
      let is_command := is_command_step step_text
      some { workflow := fr.workflow_name
             step_number := fr.current_step + 1
             total_steps := fr.steps.length
             step_text := s.format_step_for_agent step_text is_command
             is_command := is_command
             workflow_depth := s.workflow_stack.length }

/-- `advance_step`: with an empty stack return False without touching the
session; otherwise set `last_accessed = now`, then either advance the top
frame (True) or pop the completed top frame and report whether frames
remain. -/
def advance_step (now : Int) (s : WorkflowSession) : Bool × WorkflowSession :=
  match s.workflow_stack.getLast? with
  | none => (false, s)
  | some fr =>
    let s1 := { s with last_accessed := now }
    let r := fr.advance
    if r.1 then
      (true, { s1 with workflow_stack := s1.workflow_stack.dropLast ++ [r.2] })
    else
      let s2 := { s1 with workflow_stack := s1.workflow_stack.dropLast }
      (decide (0 < s2.workflow_stack.length), s2)

/-- `back_step`: decrement the top frame cursor unless the stack is empty or
the cursor is already `<= 0`. -/
def back_step (now : Int) (s : WorkflowSession) : Bool × WorkflowSession :=
  match s.workflow_stack.getLast? with
  | none => (false, s)
  | some fr =>
    if fr.current_step ≤ 0 then (false, s)
    else
      (true,
       { s with
           workflow_stack := s.workflow_stack.dropLast
             ++ [{ fr with current_step := fr.current_step - 1 }]
           last_accessed := now })

/-- `restart_session`: reset every frame cursor to 0 and touch
`last_accessed`. -/
def restart_session (now : Int) (s : WorkflowSession) : WorkflowSession :=
  { s with
      workflow_stack := s.workflow_stack.map fun f => { f with current_step := 0 }
      last_accessed := now }

/-- `break_workflow`: with at most one frame return False with no mutation;
otherwise touch `last_accessed` and pop the top frame. -/
def break_workflow (now : Int) (s : WorkflowSession) : Bool × WorkflowSession :=
  if s.workflow_stack.length ≤ 1 then (false, s)
  else
    (true,
     { s with last_accessed := now, workflow_stack := s.workflow_stack.dropLast })

/-- `push_workflow`: append a fresh frame on top and touch `last_accessed`. -/
def push_workflow (now : Int) (workflow_name : String) (steps : List String)
    (context : Option (List (String × String))) (s : WorkflowSession) :
    WorkflowSession :=
  { s with
      workflow_stack := s.workflow_stack
        ++ [{ workflow_name := workflow_name, steps := steps,
              current_step := 0, context := context.getD [] }]
      last_accessed := now }

end WorkflowSession

/-! ## Serialization (`to_dict` / `from_dict`)

The session JSON document is modelled structurally.  `datetime.isoformat` and
`datetime.fromisoformat` are exact mutual inverses on `datetime` values, so
the ISO-8601 text in the document is represented by the timestamp value it
encodes; a document whose timestamp text would fail `fromisoformat` is a
`Doc.malformed` document (see below), since `fromisoformat` raises
`ValueError`. -/

/-- Output of `asdict(frame)`: same fields as the frame. -/
structure FrameDict where
  workflow_name : String
  steps : List String
  current_step : Int
  context : List (String × String)
deriving DecidableEq, Repr

/-- Output of `SessionConfig.model_dump()`. -/
structure SessionConfigDict where
  ai_agent_prefix_enabled : Bool
  ai_agent_suffix_enabled : Bool
deriving DecidableEq, Repr

/-- Model of the per-session JSON document written by `to_dict`.
`session_config` is `None` in the document when the in-memory config was
`None`. -/
structure SessionDoc where
  session_id : String
  prompt : String
  workflow_stack : List FrameDict
  created_at : Int
  last_accessed : Int
  session_config : Option SessionConfigDict
deriving DecidableEq, Repr

/-- `asdict(frame)`. -/
def frameAsDict (f : WorkflowFrame) : FrameDict :=
  { workflow_name := f.workflow_name, steps := f.steps,
    current_step := f.current_step, context := f.context }

/-- `WorkflowFrame(**frame_data)`. -/
def frameFromDict (d : FrameDict) : WorkflowFrame :=
  { workflow_name := d.workflow_name, steps := d.steps,
    current_step := d.current_step, context := d.context }

/-- `SessionConfig.model_dump()`. -/
def configDump (c : SessionConfig) : SessionConfigDict :=
  { ai_agent_prefix_enabled := c.ai_agent_prefix_enabled,
    ai_agent_suffix_enabled := c.ai_agent_suffix_enabled }

/-- `SessionConfig(**data)`. -/
def configFromDump (d : SessionConfigDict) : SessionConfig :=
  { ai_agent_prefix_enabled := d.ai_agent_prefix_enabled,
    ai_agent_suffix_enabled := d.ai_agent_suffix_enabled }

/-- `WorkflowSession.to_dict`. -/
def WorkflowSession.to_dict (s : WorkflowSession) : SessionDoc :=
  { session_id := s.session_id
    prompt := s.prompt
    workflow_stack := s.workflow_stack.map frameAsDict
    created_at := s.created_at
    last_accessed := s.last_accessed
    session_config := s.session_config.map configDump }

/-- `WorkflowSession.from_dict`: rebuild the frames; a missing or `None`
`session_config` entry falls back to the default config. -/
def WorkflowSession.from_dict (d : SessionDoc) : WorkflowSession :=
  { session_id := d.session_id
    prompt := d.prompt
    workflow_stack := d.workflow_stack.map frameFromDict
    created_at := d.created_at
    last_accessed := d.last_accessed
    session_config :=
      some (match d.session_config with
            | some c => configFromDump c
            | none => SessionConfig.default) }

/-! ## SessionManager (persistence) -/

/-- State of one on-disk session file, classified by what reading it does:
`unreadable` — `open()` raises an `OSError` (e.g. `PermissionError`);
`malformed` — reading raises `json.JSONDecodeError`, or `from_dict` raises
`KeyError`/`ValueError` (missing key, bad timestamp text, bad config value);
`illTyped` — `from_dict` raises a `TypeError` (e.g. a frame dict with
unexpected keys); `good` — parses and deserializes cleanly. -/
inductive Doc where
  | unreadable
  | malformed
  | illTyped
  | good (d : SessionDoc)
deriving DecidableEq, Repr

/-- The two store partitions: `active` (session_dir) and `archive`
(session_dir/archive), each a list of (file id, document). -/
structure SessionStore where
  active : List (String × Doc)
  archive : List (String × Doc)
deriving DecidableEq, Repr

/-- Look up the active document for an id (`session_dir / f"{id}.json"`). -/
def lookupDoc (st : SessionStore) (id : String) : Option Doc :=
  (st.active.find? fun p => p.1 = id).map Prod.snd

/-- Reading and deserializing one document; `.error` is the Python exception
the attempt raises. -/
def parseDoc : Doc → Except PyExc WorkflowSession
  | .unreadable => .error .osError
  | .malformed => .error .jsonDecodeError
  | .illTyped => .error .typeError
  | .good d => .ok (WorkflowSession.from_dict d)

/-- Exception classes named in `load_session`'s except clause:
`(json.JSONDecodeError, KeyError, ValueError)`. -/
def caughtByLoadSession : PyExc → Bool
  | .jsonDecodeError => true
  | .keyError => true
  | .valueError => true
  | _ => false

/-- `SessionManager.load_session`: absent file gives `None`; a caught
parse/deserialize failure gives `None`; any other exception propagates. -/
def load_session (st : SessionStore) (id : String) :
    Except PyExc (Option WorkflowSession) :=
  match lookupDoc st id with
  | none => .ok none
  | some doc =>
    match parseDoc doc with
    | .ok s => .ok (some s)
    | .error e => if caughtByLoadSession e then .ok none else .error e

/-- Insert-or-overwrite an entry of a partition (writing a file). -/
def upsertDoc (l : List (String × Doc)) (id : String) (doc : Doc) :
    List (String × Doc) :=
  if l.any fun p => p.1 = id then
    l.map fun p => if p.1 = id then (id, doc) else p
  else l ++ [(id, doc)]

/-- `SessionManager.save_session` / `_save_session`: overwrite the active
document with the serialized session snapshot. -/
def save_session (st : SessionStore) (s : WorkflowSession) : SessionStore :=
  { st with active := upsertDoc st.active s.session_id (.good s.to_dict) }

/-- `SessionManager.archive_session`: rename the active document into the
archive partition; `false` when there is no active document. -/
def archive_session (st : SessionStore) (id : String) : Bool × SessionStore :=
  match lookupDoc st id with
  | none => (false, st)
  | some doc =>
    (true,
     { active := st.active.filter fun p => ¬p.1 = id
       archive := upsertDoc st.archive id doc })

/-- `SessionManager.list_active_sessions`: ids of the active partition. -/
def list_active_sessions (st : SessionStore) : List String :=
  st.active.map Prod.fst

/-! ## SessionMonitor -/

/-- Model of `session_monitor.SessionAlert`. -/
structure SessionAlert where
  session_id : String
  alert_type : String
  message : String
  severity : String
  timestamp : Int
  suggested_actions : List String
deriving DecidableEq, Repr

/-- `dormant_threshold_minutes = 10`, in seconds. -/
def dormant_threshold_seconds : Int := 10 * 60

/-- `stale_threshold_minutes = 30`, in seconds. -/
def stale_threshold_seconds : Int := 30 * 60

/-- `max_session_age_hours = 6`, in seconds. -/
def max_session_age_seconds : Int := 6 * 3600

/-- Render a span of seconds as whole and tenth units of `unitSeconds`
(stand-in for the source's `f"{x:.1f}"` float formatting; tenths are
truncated rather than round-half-even, which no claim observes). -/
def oneDecimalOf (unitSeconds : Int) (delta : Int) : String :=
  toString (delta / unitSeconds) ++ "." ++
    toString ((delta % unitSeconds) * 10 / unitSeconds)

/-- `_is_session_dormant`: `last_accessed < now - 10 minutes`. -/
def is_session_dormant (now : Int) (s : WorkflowSession) : Bool :=
  s.last_accessed < now - dormant_threshold_seconds

/-- `_is_session_stale`: `last_accessed < now - 30 minutes`. -/
def is_session_stale (now : Int) (s : WorkflowSession) : Bool :=
  s.last_accessed < now - stale_threshold_seconds

/-- `_should_auto_archive`: `created_at < now - 6 hours`. -/
def should_auto_archive (now : Int) (s : WorkflowSession) : Bool :=
  s.created_at < now - max_session_age_seconds

/-- `_create_dormant_alert`: medium-severity `dormant_session` alert. -/
def create_dormant_alert (now : Int) (s : WorkflowSession) : SessionAlert :=
  { session_id := s.session_id
    alert_type := "dormant_session"
    message := "Session has been inactive for "
      ++ oneDecimalOf 60 (now - s.last_accessed) ++ " minutes"
    severity := "medium"
    timestamp := now
    suggested_actions :=
      ["Check if workflow should be advanced",
       "Consider breaking out of workflow if complete",
       "Verify if session is still needed"] }

/-- `_create_stale_alert`: high-severity `stale_session` alert. -/
def create_stale_alert (now : Int) (s : WorkflowSession) : SessionAlert :=
  { session_id := s.session_id
    alert_type := "stale_session"
    message := "Session has been inactive for "
      ++ oneDecimalOf 60 (now - s.last_accessed)
      ++ " minutes and may be abandoned"
    severity := "high"
    timestamp := now
    suggested_actions :=
      ["Archive session if no longer needed",
       "Break out of workflow to clean up",
       "Check if session was forgotten"] }

/-- `_create_archive_alert`: low-severity `auto_archive` alert. -/
def create_archive_alert (now : Int) (s : WorkflowSession) : SessionAlert :=
  { session_id := s.session_id
    alert_type := "auto_archive"
    message := "Session is " ++ oneDecimalOf 3600 (now - s.created_at)
      ++ " hours old and will be auto-archived"
    severity := "low"
    timestamp := now
    suggested_actions :=
      ["Session will be automatically archived",
       "No action required unless session is still active"] }

/-- Alerts one loop iteration of `check_session_health` appends for a single
session: dormant, stale, auto-archive, independently evaluated, in that
order. -/
def sessionHealthAlerts (now : Int) (s : WorkflowSession) : List SessionAlert :=
  (if is_session_dormant now s then [create_dormant_alert now s] else [])
    ++ (if is_session_stale now s then [create_stale_alert now s] else [])
    ++ (if should_auto_archive now s then [create_archive_alert now s] else [])

/-- Loop body of `_get_active_sessions` over the listed ids: load each id and
keep the sessions that load and are not complete; an exception raised by
`load_session` propagates. -/
def collectActive (st : SessionStore) :
    List String → Except PyExc (List WorkflowSession)
  | [] => .ok []
  | id :: rest => do
    let s? ← load_session st id
    let tail ← collectActive st rest
    match s? with
    | some s => if s.is_complete then pure tail else pure (s :: tail)
    | none => pure tail

/-- `SessionMonitor._get_active_sessions`. -/
def get_active_sessions (st : SessionStore) :
    Except PyExc (List WorkflowSession) :=
  collectActive st (list_active_sessions st)

/-- `SessionMonitor.check_session_health`: per-session alerts of every
non-complete active session, in session order. -/
def check_session_health (now : Int) (st : SessionStore) :
    Except PyExc (List SessionAlert) := do
  let sessions ← get_active_sessions st
  pure (sessions.flatMap (sessionHealthAlerts now))

/-- Loop of `cleanup_stale_sessions` over the active sessions: archive each
age-expired one and record its id. -/
def cleanupLoop (now : Int) :
    List WorkflowSession → List String → SessionStore →
      List String × SessionStore
  | [], acc, st => (acc, st)
  | s :: rest, acc, st =>
    if should_auto_archive now s then
      let r := archive_session st s.session_id
      cleanupLoop now rest (acc ++ [s.session_id]) r.2
    else cleanupLoop now rest acc st

/-- `SessionMonitor.cleanup_stale_sessions`. -/
def cleanup_stale_sessions (now : Int) (st : SessionStore) :
    Except PyExc (List String × SessionStore) := do
  let sessions ← get_active_sessions st
  pure (cleanupLoop now sessions [] st)

/-! ### Response pattern classification

The completion patterns are Python regexes of the shape `\b(alt|...|alt)\b`
applied with `re.search` to the lower-cased text.  Each alternative is a
literal except `steps?` (optional trailing char) and `follow.?up` (optional
arbitrary char); they are modelled token by token.  Every alternative begins
and ends with a word character, so the leading `\b` holds exactly when the
character before the match position is absent or non-word, and the trailing
`\b` exactly when the character after the match is absent or non-word. -/

/-- One regex token of a completion-pattern alternative. -/
inductive RTok where
  | lit (c : Char)
  | optChar (c : Char)
  | optAny
deriving DecidableEq, Repr

/-- Word character of `\b` / `\w` (the modelled texts are ASCII). -/
def wordChar (c : Char) : Bool := c.isAlphanum || c = '_'

/-- Match an alternative against a prefix of `s`, requiring a trailing word
boundary where the match ends. -/
def matchToks : List RTok → List Char → Bool
  | [], [] => true
  | [], c :: _ => !wordChar c
  | .lit c :: rest, x :: xs => x = c && matchToks rest xs
  | .lit _ :: _, [] => false
  | .optChar c :: rest, x :: xs =>
    (x = c && matchToks rest xs) || matchToks rest (x :: xs)
  | .optChar _ :: rest, [] => matchToks rest []
  | .optAny :: rest, x :: xs => matchToks rest xs || matchToks rest (x :: xs)
  | .optAny :: rest, [] => matchToks rest []

/-- `re.search` for `\b(alt|...)\b`: try every position whose preceding
character is absent or non-word. -/
def searchAux (alts : List (List RTok)) : Bool → List Char → Bool
  | prevWord, [] => !prevWord && alts.any fun a => matchToks a []
  | prevWord, c :: cs =>
    (!prevWord && alts.any fun a => matchToks a (c :: cs))
      || searchAux alts (wordChar c) cs

/-- Literal alternative. -/
def litToks (s : String) : List RTok := s.data.map RTok.lit

/-- The four `completion_patterns`, each as its list of alternatives. -/
def completion_patterns : List (List (List RTok)) :=
  [["summary", "conclusion", "final", "complete", "done", "finished",
    "ready"].map litToks,
   ["that should", "this completes", "we have", "i have"].map litToks,
   ["in summary", "to summarize", "to conclude"].map litToks,
   [litToks "next step" ++ [RTok.optChar 's'],
    litToks "follow" ++ [RTok.optAny] ++ litToks "up",
    litToks "moving forward"]]

/-- `_has_completion_pattern`: any pattern matches the lower-cased text. -/
def has_completion_pattern (text : String) : Bool :=
  let lower := lowerChars text
  completion_patterns.any fun p => searchAux p false lower

/-- The `workflow_keywords` of `_has_workflow_management`. -/
def workflow_keywords : List String :=
  ["advance_workflow", "break_workflow", "get_workflow_status",
   "list_workflow_sessions", "workflow status", "next step",
   "continue workflow", "complete workflow"]

/-- Python substring test `needle in hay`. -/
def listContainsSub (hay : List Char) (needle : List Char) : Bool :=
  needle.isPrefixOf hay ||
    match hay with
    | [] => false
    | _ :: t => listContainsSub t needle

/-- `_has_workflow_management`: any keyword is a substring of the lower-cased
text. -/
def has_workflow_management (text : String) : Bool :=
  let lower := lowerChars text
  workflow_keywords.any fun k => listContainsSub lower k.data

/-- `_create_forgotten_completion_alert` (ignores the response text). -/
def create_forgotten_completion_alert (now : Int) (session_id : String) :
    SessionAlert :=
  { session_id := session_id
    alert_type := "forgotten_completion"
    message := "Agent provided completion-like response without managing workflow"
    severity := "high"
    timestamp := now
    suggested_actions :=
      ["Remind agent to call advance_workflow",
       "Check if workflow should be completed with break_workflow",
       "Verify workflow status with get_workflow_status"] }

/-- The monitor's in-memory `_response_history` (dict preserving insertion
order). -/
abbrev ResponseHistory := List (String × List (String × Int))

/-- `SessionMonitor.analyze_agent_response`: record the response in the
per-session rolling buffer (last 5), then alert iff a completion pattern
matches and no workflow-management keyword occurs. -/
def analyze_agent_response (now : Int) (hist : ResponseHistory)
    (session_id : String) (response : String) :
    ResponseHistory × Option SessionAlert :=
  let entries := ((hist.find? fun p => p.1 = session_id).map Prod.snd).getD []
  let grown := entries ++ [(response, now)]
  let recent := grown.drop (grown.length - 5)
  let hist2 : ResponseHistory :=
    if hist.any fun p => p.1 = session_id then
      hist.map fun p => if p.1 = session_id then (session_id, recent) else p
    else hist ++ [(session_id, recent)]
  (hist2,
   if has_completion_pattern response && !has_workflow_management response then
     some (create_forgotten_completion_alert now session_id)
   else none)

/-! ## Orchestrator session API (the slice the claims need) -/

/-- A result record returned by the orchestrator session operations.  Keys
absent from the Python dict are `none`; `break_session` sets
`current_step: None` explicitly, which is also `none` here. -/
structure OrchResult where
  success : Bool
  error : Option String := none
  message : Option String := none
  session_id : Option String := none
  current_step : Option WorkflowSession.StepInfo := none
  workflow_stack : Option (List String) := none
  has_next : Option Bool := none
deriving DecidableEq, Repr

/-- `WorkflowOrchestrator.back_session`: load, try `back_step`; on success
persist and report, otherwise report `success: false` without saving. -/
def back_session (now : Int) (st : SessionStore) (id : String) :
    Except PyExc (OrchResult × SessionStore) := do
  let s? ← load_session st id
  match s? with
  | none =>
    pure ({ success := false, error := some ("Session " ++ id ++ " not found") },
          st)
  | some s =>
    let r := WorkflowSession.back_step now s
    if r.1 then
      pure ({ success := true
              session_id := some r.2.session_id
              current_step := r.2.get_current_step
              workflow_stack :=
                some (r.2.workflow_stack.map WorkflowFrame.workflow_name)
              message := some "Went back to previous step" },
            save_session st r.2)
    else
      pure ({ success := false
              error := some "Cannot go back - already at first step"
              session_id := some s.session_id },
            st)

/-- `WorkflowOrchestrator.break_session`: load, try `break_workflow`; with a
parent, persist and report it; with no parent, archive the session and report
`success: true` with an end-of-session message. -/
def break_session (now : Int) (st : SessionStore) (id : String) :
    Except PyExc (OrchResult × SessionStore) := do
  let s? ← load_session st id
  match s? with
  | none =>
    pure ({ success := false, error := some ("Session " ++ id ++ " not found") },
          st)
  | some s =>
    let r := WorkflowSession.break_workflow now s
    if r.1 then
      pure ({ success := true
              session_id := some r.2.session_id
              current_step := r.2.get_current_step
              workflow_stack :=
                some (r.2.workflow_stack.map WorkflowFrame.workflow_name)
              message := some "Returned to parent workflow" },
            save_session st r.2)
    else
      pure ({ success := true
              session_id := some s.session_id
              current_step := none
              workflow_stack := some []
              message := some "Session ended - no parent workflow" },
            (archive_session st id).2)

/-! ## Shared helper lemmas and fixtures -/

/-- Membership survives `dropLast`. -/
theorem mem_of_mem_dropLast {α : Type} {l : List α} {a : α}
    (h : a ∈ l.dropLast) : a ∈ l :=
  (List.dropLast_sublist l).mem h

/-- The element `getLast?` returns is a member. -/
theorem mem_of_getLast?_eq {α : Type} {l : List α} {a : α}
    (h : l.getLast? = some a) : a ∈ l := by
  obtain ⟨hne, rfl⟩ := List.mem_getLast?_eq_getLast (show a ∈ l.getLast? from h)
  exact List.getLast_mem hne

/-- Decomposition of a list along `getLast?`. -/
theorem dropLast_append_of_getLast?_eq {α : Type} {l : List α} {a : α}
    (h : l.getLast? = some a) : l.dropLast ++ [a] = l :=
  List.dropLast_append_getLast? a h

/-- Config with both decoration flags off, so that reported step text is the
raw step. -/
def cfgOff : SessionConfig := ⟨false, false⟩

/-- The session of the §8 scenario, with decoration disabled. -/
def demoSession : WorkflowSession :=
  WorkflowSession.create "s1" 0 "p" [("A", ["a1", "a2"]), ("B", ["b1"])]
    (some cfgOff)

/-- First advance of the scenario. -/
def demoAdvA : Bool × WorkflowSession := WorkflowSession.advance_step 1 demoSession

/-- Second advance of the scenario. -/
def demoAdvB : Bool × WorkflowSession := WorkflowSession.advance_step 2 demoAdvA.2

/-- Third advance of the scenario. -/
def demoAdvC : Bool × WorkflowSession := WorkflowSession.advance_step 3 demoAdvB.2

/-- Fourth advance of the scenario. -/
def demoAdvD : Bool × WorkflowSession := WorkflowSession.advance_step 4 demoAdvC.2

/-- Fifth advance of the scenario. -/
def demoAdvE : Bool × WorkflowSession := WorkflowSession.advance_step 5 demoAdvD.2

/-- A session whose workflow stack is empty (e.g. a fully advanced session,
or one created from an empty workflow list). -/
def demoEmptySession : WorkflowSession :=
  { session_id := "e1", prompt := "p", workflow_stack := [],
    created_at := 0, last_accessed := 0,
    session_config := some SessionConfig.default }

/-! ## C1 -/

/-- C1 fails on the code: the claim asserts that the session created from
`[("A", ["a1","a2"]), ("B", ["b1"])]` initially reports workflow "A" and
completes after three `advance_step()` calls, but `create` stacks the frames
in input order with the LAST tuple on top, so the initial
`get_current_step()` reports workflow "B" and the third `advance_step()`
still returns true. -/
theorem c1_counterexample :
    demoSession.get_current_step.map WorkflowSession.StepInfo.workflow ≠
        some "A" ∧
      demoSession.get_current_step.map WorkflowSession.StepInfo.workflow =
        some "B" ∧
      demoAdvC.1 = true := by
  refine ⟨?_, by decide, by decide⟩
  decide

/-- C1 amended: the stack executes in LIFO order, so for the session created
from `[("A", ["a1","a2"]), ("B", ["b1"])]` (decoration disabled so the
reported text is the raw step) the initial `get_current_step()` reports
workflow "B", step 1 of 1, text "b1"; the first `advance_step()` advances B
to its end and returns true (after which `get_current_step()` is null, the
top frame being complete); the second pops B, returns true, and
`get_current_step()` reports workflow "A", step 1 of 2, text "a1"; the third
and fourth advance A through step 2 of 2, both returning true; the fifth pops
A, empties the stack, and returns false. -/
theorem c1_lifo_scenario :
    demoSession.get_current_step = some ⟨"B", 1, 1, "b1", false, 2⟩ ∧
      demoAdvA.1 = true ∧
      demoAdvA.2.get_current_step = none ∧
      demoAdvB.1 = true ∧
      demoAdvB.2.get_current_step = some ⟨"A", 1, 2, "a1", false, 1⟩ ∧
      demoAdvC.1 = true ∧
      demoAdvC.2.get_current_step = some ⟨"A", 2, 2, "a2", false, 1⟩ ∧
      demoAdvD.1 = true ∧
      demoAdvE.1 = false ∧
      demoAdvE.2.workflow_stack = [] := by
  decide

/-! ## C3 -/

/-- C3 fails on the code as stated for sessions with an empty workflow stack:
`advance_step()` returns `False` before touching `last_accessed`, so it does
not set it to the current time for every session. -/
theorem c3_counterexample :
    (WorkflowSession.advance_step 5 demoEmptySession).2.last_accessed = 0 ∧
      ¬(WorkflowSession.advance_step 5 demoEmptySession).2.last_accessed = 5 ∧
      (WorkflowSession.advance_step 5 demoEmptySession).1 = false := by
  decide

/-- C3 amended: for every session whose workflow stack is non-empty,
`advance_step()` sets `last_accessed` to the current time; then, if the top
frame is not complete it increments that frame's cursor and returns true, and
if the top frame is already complete it pops that frame off the stack and
returns true exactly when the stack is still non-empty after the pop.  On an
empty stack it returns false and leaves the session (including
`last_accessed`) unchanged. -/
theorem c3_advance_step_semantics :
    (∀ (now : Int) (s : WorkflowSession),
        s.workflow_stack.getLast? = none →
        WorkflowSession.advance_step now s = (false, s)) ∧
    (∀ (now : Int) (s : WorkflowSession) (fr : WorkflowFrame),
        s.workflow_stack.getLast? = some fr →
        (WorkflowSession.advance_step now s).2.last_accessed = now ∧
        (fr.is_complete = false →
          WorkflowSession.advance_step now s =
            (true,
             { s with
                 last_accessed := now
                 workflow_stack := s.workflow_stack.dropLast
                   ++ [{ fr with current_step := fr.current_step + 1 }] })) ∧
        (fr.is_complete = true →
          (WorkflowSession.advance_step now s).2 =
            { s with
                last_accessed := now
                workflow_stack := s.workflow_stack.dropLast } ∧
          ((WorkflowSession.advance_step now s).1 = true ↔
            s.workflow_stack.dropLast ≠ []))) := by
  constructor
  · intro now s h
    simp [WorkflowSession.advance_step, h]
  · intro now s fr h
    refine ⟨?_, ?_, ?_⟩
    · by_cases hc : fr.is_complete <;>
        simp [WorkflowSession.advance_step, h, WorkflowFrame.advance, hc]
    · intro hc
      simp [WorkflowSession.advance_step, h, WorkflowFrame.advance, hc]
    · intro hc
      constructor
      · simp [WorkflowSession.advance_step, h, WorkflowFrame.advance, hc]
      · simp [WorkflowSession.advance_step, h, WorkflowFrame.advance, hc]
        have hd := List.length_dropLast s.workflow_stack
        constructor
        · intro h1 hnil
          rw [hnil] at hd
          simp at hd
          omega
        · intro h1
          by_contra h2
          push_neg at h2
          exact h1 (List.length_eq_zero.mp (by omega))

/-- Witness for C3's amended theorem at concrete inputs: the empty-stack
clause on `demoEmptySession`, and the timestamp and advance clauses on the
scenario session, whose top frame "B" is not complete. -/
theorem c3_advance_step_semantics_witness :
    WorkflowSession.advance_step 9 demoEmptySession = (false, demoEmptySession) ∧
      (WorkflowSession.advance_step 9 demoSession).2.last_accessed = 9 := by
  constructor
  · exact c3_advance_step_semantics.1 9 demoEmptySession (by decide)
  · exact (c3_advance_step_semantics.2 9 demoSession
      { workflow_name := "B", steps := ["b1"], current_step := 0, context := [] }
      (by decide)).1

/-! ## C5 -/

/-- Cursor invariant of a single frame: `0 <= current_step <= len(steps)`. -/
def FrameInv (f : WorkflowFrame) : Prop :=
  0 ≤ f.current_step ∧ f.current_step ≤ f.steps.length

/-- Cursor invariant of every frame of a session. -/
def SessionInv (s : WorkflowSession) : Prop :=
  ∀ f ∈ s.workflow_stack, FrameInv f

instance (f : WorkflowFrame) : Decidable (FrameInv f) := by
  unfold FrameInv
  infer_instance

instance (s : WorkflowSession) : Decidable (SessionInv s) := by
  unfold SessionInv
  infer_instance

/-- Frames reached through `getLast?` satisfy a session invariant. -/
theorem frameInv_of_getLast? {s : WorkflowSession} {fr : WorkflowFrame}
    (hs : SessionInv s) (h : s.workflow_stack.getLast? = some fr) :
    FrameInv fr :=
  hs fr (mem_of_getLast?_eq h)

/-- C5: the cursor invariant `0 <= current_step <= len(steps)` holds for
every frame of a freshly created session and is preserved by `advance_step`,
`back_step`, `restart_session`, `break_workflow` and `push_workflow`; under
it, `is_complete` holds exactly when `current_step = len(steps)`, and
`current_step_text` is `steps[current_step]` when not complete and null when
complete. -/
theorem c5_cursor_invariant :
    (∀ (id : String) (now : Int) (prompt : String)
        (ws : List (String × List String)) (cfg : Option SessionConfig),
        SessionInv (WorkflowSession.create id now prompt ws cfg)) ∧
    (∀ (now : Int) (s : WorkflowSession), SessionInv s →
        SessionInv (WorkflowSession.advance_step now s).2) ∧
    (∀ (now : Int) (s : WorkflowSession), SessionInv s →
        SessionInv (WorkflowSession.back_step now s).2) ∧
    (∀ (now : Int) (s : WorkflowSession), SessionInv s →
        SessionInv (WorkflowSession.restart_session now s)) ∧
    (∀ (now : Int) (s : WorkflowSession), SessionInv s →
        SessionInv (WorkflowSession.break_workflow now s).2) ∧
    (∀ (now : Int) (name : String) (steps : List String)
        (ctx : Option (List (String × String))) (s : WorkflowSession),
        SessionInv s →
        SessionInv (WorkflowSession.push_workflow now name steps ctx s)) ∧
    (∀ f : WorkflowFrame, FrameInv f →
        (f.is_complete = true ↔ f.current_step = f.steps.length)) ∧
    (∀ f : WorkflowFrame, FrameInv f → f.is_complete = false →
        f.current_step_text = f.steps.get? f.current_step.toNat ∧
          (f.steps.get? f.current_step.toNat).isSome = true) ∧
    (∀ f : WorkflowFrame, FrameInv f → f.is_complete = true →
        f.current_step_text = none) := by
  refine ⟨?_, ?_, ?_, ?_, ?_, ?_, ?_, ?_, ?_⟩
  · intro id now prompt ws cfg f hf
    simp only [WorkflowSession.create, List.mem_map] at hf
    obtain ⟨p, _, rfl⟩ := hf
    exact ⟨le_refl 0, Int.ofNat_nonneg _⟩
  · intro now s hs f hf
    rcases h : s.workflow_stack.getLast? with _ | fr
    · simp only [WorkflowSession.advance_step, h] at hf
      exact hs f hf
    · have hfr := frameInv_of_getLast? hs h
      by_cases hc : fr.is_complete
      · simp [WorkflowSession.advance_step, h, WorkflowFrame.advance, hc] at hf
        exact hs f (mem_of_mem_dropLast hf)
      · simp [WorkflowSession.advance_step, h, WorkflowFrame.advance, hc] at hf
        rcases hf with hf | rfl
        · exact hs f (mem_of_mem_dropLast hf)
        · obtain ⟨ha, hb⟩ := hfr
          have hlt : ¬((fr.steps.length : Int) ≤ fr.current_step) := by
            simpa [WorkflowFrame.is_complete] using hc
          constructor
          · show 0 ≤ fr.current_step + 1
            omega
          · show fr.current_step + 1 ≤ _
            simpa using by omega
  · intro now s hs f hf
    rcases h : s.workflow_stack.getLast? with _ | fr
    · simp only [WorkflowSession.back_step, h] at hf
      exact hs f hf
    · have hfr := frameInv_of_getLast? hs h
      by_cases hz : fr.current_step ≤ 0
      · simp [WorkflowSession.back_step, h, hz] at hf
        exact hs f hf
      · simp [WorkflowSession.back_step, h, hz] at hf
        rcases hf with hf | rfl
        · exact hs f (mem_of_mem_dropLast hf)
        · obtain ⟨ha, hb⟩ := hfr
          constructor
          · show 0 ≤ fr.current_step - 1
            omega
          · show fr.current_step - 1 ≤ _
            simpa using by omega
  · intro now s hs f hf
    simp only [WorkflowSession.restart_session, List.mem_map] at hf
    obtain ⟨g, _, rfl⟩ := hf
    exact ⟨le_refl 0, Int.ofNat_nonneg _⟩
  · intro now s hs f hf
    by_cases h : s.workflow_stack.length ≤ 1
    · simp only [WorkflowSession.break_workflow, h, if_pos] at hf
      exact hs f hf
    · simp only [WorkflowSession.break_workflow, h, if_neg] at hf
      exact hs f (mem_of_mem_dropLast hf)
  · intro now name steps ctx s hs f hf
    simp only [WorkflowSession.push_workflow, List.mem_append,
      List.mem_singleton] at hf
    rcases hf with hf | rfl
    · exact hs f hf
    · exact ⟨le_refl 0, Int.ofNat_nonneg _⟩
  · intro f hf
    obtain ⟨hf1, hf2⟩ := hf
    simp only [WorkflowFrame.is_complete, decide_eq_true_eq]
    omega
  · intro f hf hc
    obtain ⟨hf1, hf2⟩ := hf
    have h1 : ¬((f.steps.length : Int) ≤ f.current_step) := by
      simpa [WorkflowFrame.is_complete] using hc
    have h2 : f.current_step.toNat < f.steps.length := by omega
    refine ⟨?_, ?_⟩
    · simp [WorkflowFrame.current_step_text, WorkflowFrame.is_complete,
        pyGetItem, hf1, h1]
    · rw [List.get?_eq_get h2]
      rfl
  · intro f hf hc
    simp [WorkflowFrame.current_step_text, hc]

/-- Witness for C5 at concrete inputs: the invariant holds for the scenario
session, is preserved by one concrete `advance_step`, and the frame
characterizations hold on its (not complete) top frame. -/
theorem c5_cursor_invariant_witness :
    SessionInv demoSession ∧
      SessionInv (WorkflowSession.advance_step 1 demoSession).2 ∧
      (WorkflowFrame.is_complete ⟨"B", ["b1"], 0, []⟩ = true ↔
        (0 : Int) = ([("b1" : String)] : List String).length) := by
  refine ⟨?_, ?_, ?_⟩
  · decide
  · exact c5_cursor_invariant.2.1 1 demoSession (by decide)
  · exact c5_cursor_invariant.2.2.2.2.2.2.1 ⟨"B", ["b1"], 0, []⟩ (by decide)

/-! ## C6 -/

/-- C6: `break_workflow()` on a stack with at most one frame returns false
and leaves the session entirely unchanged (including `last_accessed`); on a
stack of depth at least 2 it returns true and removes exactly the top frame,
leaving the remaining frames (names, steps, cursors) untouched and in their
original order, as `dropLast` of the stack. -/
theorem c6_break_workflow :
    (∀ (now : Int) (s : WorkflowSession), s.workflow_stack.length ≤ 1 →
        WorkflowSession.break_workflow now s = (false, s)) ∧
    (∀ (now : Int) (s : WorkflowSession), 2 ≤ s.workflow_stack.length →
        (WorkflowSession.break_workflow now s).1 = true ∧
        (WorkflowSession.break_workflow now s).2.workflow_stack =
          s.workflow_stack.dropLast ∧
        (WorkflowSession.break_workflow now s).2.session_id = s.session_id ∧
        (WorkflowSession.break_workflow now s).2.prompt = s.prompt ∧
        (WorkflowSession.break_workflow now s).2.created_at = s.created_at ∧
        (WorkflowSession.break_workflow now s).2.session_config =
          s.session_config) := by
  constructor
  · intro now s h
    simp [WorkflowSession.break_workflow, h]
  · intro now s h
    have h1 : ¬s.workflow_stack.length ≤ 1 := by omega
    simp [WorkflowSession.break_workflow, h1]

/-- Witness for C6 at concrete inputs: the one-frame branch on a session with
a single frame, and the depth-2 branch on the scenario session. -/
theorem c6_break_workflow_witness :
    WorkflowSession.break_workflow 3 demoEmptySession =
        (false, demoEmptySession) ∧
      (WorkflowSession.break_workflow 3 demoSession).2.workflow_stack =
        demoSession.workflow_stack.dropLast := by
  constructor
  · exact c6_break_workflow.1 3 demoEmptySession (by decide)
  · exact (c6_break_workflow.2 3 demoSession (by decide)).2.1

/-! ## C9 -/

/-- Frame serialization round-trips. -/
theorem frame_roundtrip (f : WorkflowFrame) : frameFromDict (frameAsDict f) = f := by
  cases f
  rfl

/-- Config serialization round-trips. -/
theorem config_roundtrip (c : SessionConfig) : configFromDump (configDump c) = c := by
  cases c
  rfl

/-- A session with a `None` config (as the repository's own test fixtures
build directly), for which serialization does not round-trip. -/
def demoNoConfigSession : WorkflowSession :=
  { session_id := "n1", prompt := "p",
    workflow_stack :=
      [{ workflow_name := "W", steps := ["s1", "s2"], current_step := 1,
         context := [] }],
    created_at := 3, last_accessed := 7, session_config := none }

/-- A session with a two-level workflow stack and a non-default config. -/
def demoTwoFrameSession : WorkflowSession :=
  { session_id := "w1", prompt := "p2",
    workflow_stack :=
      [{ workflow_name := "outer", steps := ["o1", "o2"], current_step := 1,
         context := [("k", "v")] },
       { workflow_name := "inner", steps := ["i1"], current_step := 0,
         context := [] }],
    created_at := 5, last_accessed := 9, session_config := some cfgOff }

/-- C9 fails on the code as stated for a session whose `session_config` is
`None` (the dataclass default, used by the repository's own test fixtures):
`to_dict` writes `session_config: None` and `from_dict` replaces it with the
default config, so the round-trip is not field-for-field equal. -/
theorem c9_counterexample :
    WorkflowSession.from_dict demoNoConfigSession.to_dict ≠
        demoNoConfigSession ∧
      (WorkflowSession.from_dict demoNoConfigSession.to_dict).session_config =
        some SessionConfig.default := by
  decide

/-- C9 amended: for every session whose `session_config` is present (as in
every session built by `create` or `from_dict`), including one with a
two-level workflow stack and a non-default config, `from_dict (to_dict s)`
reproduces the session in every field: id, prompt, both timestamps, the
config flags, and each frame's name, steps, cursor and context, in stack
order.  A session with a `None` config deserializes with the default config
in its place. -/
theorem c9_roundtrip (s : WorkflowSession) (h : s.session_config ≠ none) :
    WorkflowSession.from_dict s.to_dict = s := by
  obtain ⟨sid, prompt, stack, ca, la, cfg⟩ := s
  cases cfg with
  | none => exact absurd rfl h
  | some c =>
    have hstack : (stack.map frameAsDict).map frameFromDict = stack := by
      rw [List.map_map]
      have hcomp : frameFromDict ∘ frameAsDict = id :=
        funext fun f => frame_roundtrip f
      rw [hcomp, List.map_id]
    simp [WorkflowSession.to_dict, WorkflowSession.from_dict, hstack,
      config_roundtrip]

/-- Witness for C9's amended theorem on the two-level, non-default-config
session. -/
theorem c9_roundtrip_witness :
    WorkflowSession.from_dict demoTwoFrameSession.to_dict =
      demoTwoFrameSession :=
  c9_roundtrip demoTwoFrameSession (by decide)

/-! ## C4 -/

instance {e a : Type} [DecidableEq e] [DecidableEq a] :
    DecidableEq (Except e a) := fun x y =>
  match x, y with
  | .ok v, .ok w =>
    if h : v = w then isTrue (by rw [h]) else
      isFalse (by intro hh; cases hh; exact h rfl)
  | .error v, .error w =>
    if h : v = w then isTrue (by rw [h]) else
      isFalse (by intro hh; cases hh; exact h rfl)
  | .ok _, .error _ => isFalse (by intro hh; cases hh)
  | .error _, .ok _ => isFalse (by intro hh; cases hh)

/-- Store with an active document whose read raises a PermissionError. -/
def demoUnreadableStore : SessionStore :=
  { active := [("x", Doc.unreadable)], archive := [] }

/-- Store with a malformed document, a good document, and nothing else. -/
def demoMixedStore : SessionStore :=
  { active := [("m", Doc.malformed), ("g", Doc.good demoTwoFrameSession.to_dict)],
    archive := [] }

/-- C4 fails on the code: the `except` clause of `load_session` catches only
`json.JSONDecodeError`, `KeyError` and `ValueError`, so an I/O error while
opening the document — e.g. a `PermissionError` — propagates to the caller
instead of being swallowed. -/
theorem c4_counterexample :
    load_session demoUnreadableStore "x" = Except.error PyExc.osError := by
  decide

/-- C4 amended: `load_session(id)` returns null both when the document is
absent and when it exists but its parse/deserialize raises one of the caught
exceptions (`JSONDecodeError`, `KeyError`, `ValueError`); a well-formed
document loads via `from_dict`.  However, an OS-level I/O error such as a
permission error, or a `TypeError` from an unexpected document shape,
propagates out of `load_session` uncaught. -/
theorem c4_load_session_errors :
    (∀ (st : SessionStore) (id : String), lookupDoc st id = none →
        load_session st id = .ok none) ∧
    (∀ (st : SessionStore) (id : String), lookupDoc st id = some .malformed →
        load_session st id = .ok none) ∧
    (∀ (st : SessionStore) (id : String) (d : SessionDoc),
        lookupDoc st id = some (.good d) →
        load_session st id = .ok (some (WorkflowSession.from_dict d))) ∧
    (∀ (st : SessionStore) (id : String), lookupDoc st id = some .unreadable →
        load_session st id = .error .osError) ∧
    (∀ (st : SessionStore) (id : String), lookupDoc st id = some .illTyped →
        load_session st id = .error .typeError) := by
  refine ⟨?_, ?_, ?_, ?_, ?_⟩ <;> intro st id
  · intro h
    simp [load_session, h]
  · intro h
    simp [load_session, h, parseDoc, caughtByLoadSession]
  · intro d h
    simp [load_session, h, parseDoc]
  · intro h
    simp [load_session, h, parseDoc, caughtByLoadSession]
  · intro h
    simp [load_session, h, parseDoc, caughtByLoadSession]

/-- Witness for C4's amended theorem on a concrete store: an absent id, a
malformed document, and a good document. -/
theorem c4_load_session_errors_witness :
    load_session demoMixedStore "nope" = .ok none ∧
      load_session demoMixedStore "m" = .ok none ∧
      load_session demoMixedStore "g" =
        .ok (some (WorkflowSession.from_dict demoTwoFrameSession.to_dict)) := by
  refine ⟨?_, ?_, ?_⟩
  · exact c4_load_session_errors.1 demoMixedStore "nope" (by decide)
  · exact c4_load_session_errors.2.1 demoMixedStore "m" (by decide)
  · exact c4_load_session_errors.2.2.1 demoMixedStore "g"
      demoTwoFrameSession.to_dict (by decide)

/-! ## C2 -/

/-- Archiving removes the active document for the archived id. -/
theorem lookupDoc_archive_self (st : SessionStore) (id : String) :
    lookupDoc (archive_session st id).2 id = none := by
  rcases h : lookupDoc st id with _ | doc
  · simp [archive_session, h]
  · have hact : (archive_session st id).2.active
        = st.active.filter fun p => ¬p.1 = id := by
      simp [archive_session, h]
    have hf : (st.active.filter fun p => ¬p.1 = id).find?
        (fun p => p.1 = id) = none := by
      apply List.find?_eq_none.mpr
      intro x hx
      have hx2 := (List.mem_filter.mp hx).2
      simp only [decide_not, Bool.not_eq_true', decide_eq_false_iff_not] at hx2
      simp [hx2]
    simp [lookupDoc, hact, hf]

/-- A session with a single one-step-remaining frame at cursor 0. -/
def demoOneFrameSession : WorkflowSession :=
  { session_id := "s1", prompt := "p",
    workflow_stack :=
      [{ workflow_name := "W", steps := ["x1", "x2"], current_step := 0,
         context := [] }],
    created_at := 0, last_accessed := 0,
    session_config := some SessionConfig.default }

/-- Store holding only the one-frame session. -/
def demoOneFrameStore : SessionStore :=
  { active := [("s1", Doc.good demoOneFrameSession.to_dict)], archive := [] }

/-- C2 fails on the code: `break_session` on a session whose stack has a
single frame does not return `success: false`; it archives the session
(moving the document out of the active partition) and returns
`success: true` with the message "Session ended - no parent workflow". -/
theorem c2_counterexample :
    (break_session 5 demoOneFrameStore "s1").map
        (fun p => (p.1.success, p.1.error, p.1.message, lookupDoc p.2 "s1",
                   p.2.archive.map Prod.fst)) =
      .ok (true, none, some "Session ended - no parent workflow", none,
           ["s1"]) := by
  decide

/-- C2 amended: `back_session` when the top frame's cursor is 0 returns a
record with `success: false` and an error string and leaves both the
in-memory session and the store untouched (the document stays in the active
partition); `break_session` when the stack has only one frame instead
archives the session — the document leaves the active partition — and
returns `success: true` with the message "Session ended - no parent
workflow". -/
theorem c2_invalid_transitions :
    (∀ (now : Int) (st : SessionStore) (id : String) (s : WorkflowSession)
        (fr : WorkflowFrame),
        load_session st id = .ok (some s) →
        s.workflow_stack.getLast? = some fr →
        fr.current_step = 0 →
        WorkflowSession.back_step now s = (false, s) ∧
        back_session now st id =
          .ok ({ success := false
                 error := some "Cannot go back - already at first step"
                 session_id := some s.session_id }, st)) ∧
    (∀ (now : Int) (st : SessionStore) (id : String) (s : WorkflowSession),
        load_session st id = .ok (some s) →
        s.workflow_stack.length ≤ 1 →
        break_session now st id =
          .ok ({ success := true
                 session_id := some s.session_id
                 current_step := none
                 workflow_stack := some []
                 message := some "Session ended - no parent workflow" },
               (archive_session st id).2) ∧
        lookupDoc (archive_session st id).2 id = none) := by
  constructor
  · intro now st id s fr hload hlast hz
    have hback : WorkflowSession.back_step now s = (false, s) := by
      simp [WorkflowSession.back_step, hlast, hz]
    refine ⟨hback, ?_⟩
    simp [back_session, hload, hback, Bind.bind, Except.bind, Pure.pure,
      Except.pure]
  · intro now st id s hload hlen
    have hbrk : WorkflowSession.break_workflow now s = (false, s) := by
      simp [WorkflowSession.break_workflow, hlen]
    refine ⟨?_, lookupDoc_archive_self st id⟩
    simp [break_session, hload, hbrk, Bind.bind, Except.bind, Pure.pure,
      Except.pure]

/-- Witness for C2's amended theorem on the one-frame store: `back_session`
at the first step fails without touching the store, and `break_session`
removes the active document. -/
theorem c2_invalid_transitions_witness :
    back_session 4 demoOneFrameStore "s1" =
        .ok ({ success := false
               error := some "Cannot go back - already at first step"
               session_id := some "s1" }, demoOneFrameStore) ∧
      lookupDoc (archive_session demoOneFrameStore "s1").2 "s1" = none := by
  constructor
  · exact (c2_invalid_transitions.1 4 demoOneFrameStore "s1"
      (WorkflowSession.from_dict demoOneFrameSession.to_dict)
      { workflow_name := "W", steps := ["x1", "x2"], current_step := 0,
        context := [] }
      (by decide) (by decide) (by decide)).2
  · exact (c2_invalid_transitions.2 4 demoOneFrameStore "s1"
      (WorkflowSession.from_dict demoOneFrameSession.to_dict)
      (by decide) (by decide)).2

/-! ## C7 -/

/-- Predicate selecting the dormant/stale alerts of a session's alert list. -/
def isDormantOrStaleAlert (a : SessionAlert) : Bool :=
  a.alert_type == "dormant_session" || a.alert_type == "stale_session"

/-- Sessions produced by `_get_active_sessions` loaded successfully and are
not complete. -/
theorem collectActive_not_complete (st : SessionStore) :
    ∀ (l : List String) (sessions : List WorkflowSession),
      collectActive st l = .ok sessions →
      ∀ s ∈ sessions, s.is_complete = false ∧
        ∃ i ∈ l, load_session st i = .ok (some s) := by
  intro l
  induction l with
  | nil =>
    intro sessions h s hs
    simp [collectActive] at h
    subst h
    simp at hs
  | cons id rest ih =>
    intro sessions h s hs
    rcases hl : load_session st id with e | s?
    · simp [collectActive, hl, Bind.bind, Except.bind] at h
    · rcases htail : collectActive st rest with e | tail
      · simp [collectActive, hl, htail, Bind.bind, Except.bind] at h
      · rcases s? with _ | s2
        · simp [collectActive, hl, htail, Bind.bind, Except.bind, Pure.pure,
            Except.pure] at h
          subst h
          obtain ⟨hnc, i, hi, hload⟩ := ih tail htail s hs
          exact ⟨hnc, i, List.mem_cons_of_mem _ hi, hload⟩
        · by_cases hc : s2.is_complete
          · simp [collectActive, hl, htail, Bind.bind, Except.bind, Pure.pure,
              Except.pure, hc] at h
            subst h
            obtain ⟨hnc, i, hi, hload⟩ := ih tail htail s hs
            exact ⟨hnc, i, List.mem_cons_of_mem _ hi, hload⟩
          · simp [collectActive, hl, htail, Bind.bind, Except.bind, Pure.pure,
              Except.pure, hc] at h
            subst h
            rcases List.mem_cons.mp hs with rfl | hs
            · exact ⟨by simpa using hc, id, List.mem_cons_self _ _, hl⟩
            · obtain ⟨hnc, i, hi, hload⟩ := ih tail htail s hs
              exact ⟨hnc, i, List.mem_cons_of_mem _ hi, hload⟩

/-- Reduction of `check_session_health` once the active sessions are known. -/
theorem check_session_health_ok {now : Int} {st : SessionStore}
    {sessions : List WorkflowSession}
    (h : get_active_sessions st = .ok sessions) :
    check_session_health now st =
      .ok (sessions.flatMap (sessionHealthAlerts now)) := by
  simp [check_session_health, h, Bind.bind, Except.bind, Pure.pure,
    Except.pure]

/-- C7: in `check_session_health`, a non-complete active session inactive for
more than 30 minutes receives two separate alerts — a medium-severity
`dormant_session` alert and a high-severity `stale_session` alert, distinct
elements of the alert list — while a session inactive for more than 10 but at
most 30 minutes receives only the dormant one of the pair; every active
session examined is non-complete and each of its alerts appears in the output
of `check_session_health`. -/
theorem c7_double_alerting :
    (∀ (now : Int) (s : WorkflowSession),
        stale_threshold_seconds < now - s.last_accessed →
        (sessionHealthAlerts now s).filter isDormantOrStaleAlert =
          [create_dormant_alert now s, create_stale_alert now s] ∧
        (create_dormant_alert now s).severity = "medium" ∧
        (create_stale_alert now s).severity = "high" ∧
        create_dormant_alert now s ≠ create_stale_alert now s) ∧
    (∀ (now : Int) (s : WorkflowSession),
        dormant_threshold_seconds < now - s.last_accessed →
        now - s.last_accessed ≤ stale_threshold_seconds →
        (sessionHealthAlerts now s).filter isDormantOrStaleAlert =
          [create_dormant_alert now s]) ∧
    (∀ (now : Int) (st : SessionStore) (sessions : List WorkflowSession),
        get_active_sessions st = .ok sessions →
        check_session_health now st =
          .ok (sessions.flatMap (sessionHealthAlerts now)) ∧
        ∀ s ∈ sessions, s.is_complete = false ∧
          ∀ a ∈ sessionHealthAlerts now s,
            a ∈ sessions.flatMap (sessionHealthAlerts now)) := by
  have e1 : ∀ (now : Int) (s : WorkflowSession),
      isDormantOrStaleAlert (create_dormant_alert now s) = true := fun _ _ => rfl
  have e2 : ∀ (now : Int) (s : WorkflowSession),
      isDormantOrStaleAlert (create_stale_alert now s) = true := fun _ _ => rfl
  have e3 : ∀ (now : Int) (s : WorkflowSession),
      isDormantOrStaleAlert (create_archive_alert now s) = false := fun _ _ => rfl
  refine ⟨?_, ?_, ?_⟩
  · intro now s h
    have h' : (1800 : Int) < now - s.last_accessed := h
    have hd : is_session_dormant now s = true := by
      simp only [is_session_dormant, dormant_threshold_seconds,
        decide_eq_true_eq]
      omega
    have hs' : is_session_stale now s = true := by
      simp only [is_session_stale, stale_threshold_seconds, decide_eq_true_eq]
      omega
    refine ⟨?_, rfl, rfl, ?_⟩
    · by_cases harch : should_auto_archive now s <;>
        simp [sessionHealthAlerts, hd, hs', harch, List.filter_cons, e1, e2, e3]
    · intro heq
      have h1 : (create_dormant_alert now s).alert_type = "dormant_session" :=
        rfl
      have h2 : (create_stale_alert now s).alert_type = "stale_session" := rfl
      have h3 := congrArg SessionAlert.alert_type heq
      rw [h1, h2] at h3
      exact absurd h3 (by decide)
  · intro now s h1 h2
    have h1' : (600 : Int) < now - s.last_accessed := h1
    have h2' : now - s.last_accessed ≤ (1800 : Int) := h2
    have hd : is_session_dormant now s = true := by
      simp only [is_session_dormant, dormant_threshold_seconds,
        decide_eq_true_eq]
      omega
    have hs' : is_session_stale now s = false := by
      simp only [is_session_stale, stale_threshold_seconds,
        decide_eq_false_iff_not]
      omega
    by_cases harch : should_auto_archive now s <;>
      simp [sessionHealthAlerts, hd, hs', harch, List.filter_cons, e1, e2, e3]
  · intro now st sessions hact
    constructor
    · exact check_session_health_ok hact
    · intro s hs
      refine ⟨(collectActive_not_complete st _ sessions hact s hs).1, ?_⟩
      intro a ha
      exact List.mem_flatMap.mpr ⟨s, hs, ha⟩

/-- Witness for C7 at concrete inputs: a session checked 1993 seconds after
last access gets both alerts of the pair, checked 993 seconds after only the
dormant one, and `check_session_health` on a concrete store emits the
per-session alerts of its only (non-complete) active session. -/
theorem c7_double_alerting_witness :
    (sessionHealthAlerts 2000 demoNoConfigSession).filter
        isDormantOrStaleAlert =
      [create_dormant_alert 2000 demoNoConfigSession,
       create_stale_alert 2000 demoNoConfigSession] ∧
    (sessionHealthAlerts 1000 demoNoConfigSession).filter
        isDormantOrStaleAlert =
      [create_dormant_alert 1000 demoNoConfigSession] ∧
    check_session_health 0 demoMixedStore =
      .ok ([WorkflowSession.from_dict demoTwoFrameSession.to_dict].flatMap
        (sessionHealthAlerts 0)) := by
  refine ⟨?_, ?_, ?_⟩
  · exact (c7_double_alerting.1 2000 demoNoConfigSession (by decide)).1
  · exact c7_double_alerting.2.1 1000 demoNoConfigSession (by decide) (by decide)
  · exact (c7_double_alerting.2.2 0 demoMixedStore
      [WorkflowSession.from_dict demoTwoFrameSession.to_dict] (by decide)).1

/-! ## C8 -/

/-- Apostrophe character (U+0027). -/
def aposChar : Char := Char.ofNat 39

/-- Completion-phrase text with no workflow-management keyword. -/
def textCompletesReady : String :=
  "That completes the implementation. The system is ready."

/-- Completion-phrase text that also names `advance_workflow`. -/
def textCompletesAdvance : String :=
  "That completes the task. I" ++ String.singleton aposChar
    ++ "ll use advance_workflow to move to the next step."

/-- C8: `analyze_agent_response(session_id, text)` returns a high-severity
`forgotten_completion` alert exactly when the text matches at least one
completion phrase pattern and no workflow-management keyword, and null
otherwise; in particular it alerts on "That completes the implementation.
The system is ready." and returns null on "That completes the task. I'll use
advance_workflow to move to the next step.". -/
theorem c8_analyze_response :
    (∀ (now : Int) (hist : ResponseHistory) (sid text : String),
        ((analyze_agent_response now hist sid text).2.isSome = true ↔
          has_completion_pattern text = true ∧
            has_workflow_management text = false) ∧
        ∀ a : SessionAlert,
          (analyze_agent_response now hist sid text).2 = some a →
          a.alert_type = "forgotten_completion" ∧ a.severity = "high" ∧
            a.session_id = sid) ∧
    (analyze_agent_response 0 [] "sid" textCompletesReady).2 =
      some (create_forgotten_completion_alert 0 "sid") ∧
    (analyze_agent_response 0 [] "sid" textCompletesAdvance).2 = none := by
  refine ⟨?_, ?_, ?_⟩
  · intro now hist sid text
    constructor
    · cases h1 : has_completion_pattern text <;>
        cases h2 : has_workflow_management text <;>
          simp [analyze_agent_response, h1, h2]
    · intro a ha
      cases h1 : has_completion_pattern text <;>
        cases h2 : has_workflow_management text <;>
          simp [analyze_agent_response, h1, h2] at ha
      subst ha
      exact ⟨rfl, rfl, rfl⟩
  · decide
  · decide

/-- Witness for C8 at a concrete input: the alert returned for the
completion-without-management text is a high-severity forgotten_completion
alert for the session. -/
theorem c8_analyze_response_witness :
    ((analyze_agent_response 0 [] "sid" textCompletesReady).2.isSome = true ↔
      has_completion_pattern textCompletesReady = true ∧
        has_workflow_management textCompletesReady = false) ∧
    (create_forgotten_completion_alert 0 "sid").alert_type =
        "forgotten_completion" ∧
      (create_forgotten_completion_alert 0 "sid").severity = "high" ∧
      (create_forgotten_completion_alert 0 "sid").session_id = "sid" := by
  constructor
  · exact (c8_analyze_response.1 0 [] "sid" textCompletesReady).1
  · exact (c8_analyze_response.1 0 [] "sid" textCompletesReady).2
      (create_forgotten_completion_alert 0 "sid") c8_analyze_response.2.1

/-! ## C10 -/

/-- An element of `if c then [x] else []` is `x`. -/
theorem eq_of_mem_ite_singleton {α : Type} {c : Prop} [Decidable c]
    {x a : α} (h : a ∈ if c then [x] else []) : a = x := by
  split at h
  · simpa using h
  · simp at h

/-- Every alert `check_session_health` emits for a session carries that
session's id. -/
theorem sessionHealthAlerts_session_id (now : Int) (s : WorkflowSession) :
    ∀ a ∈ sessionHealthAlerts now s, a.session_id = s.session_id := by
  intro a ha
  rcases List.mem_append.mp ha with h | h
  · rcases List.mem_append.mp h with h1 | h1
    · rw [eq_of_mem_ite_singleton h1]
      rfl
    · rw [eq_of_mem_ite_singleton h1]
      rfl
  · rw [eq_of_mem_ite_singleton h]
    rfl

/-- `find?` on a list with distinct keys locates any member entry. -/
theorem find?_eq_of_mem_nodup :
    ∀ (l : List (String × Doc)) (id : String) (doc : Doc),
      (l.map Prod.fst).Nodup → (id, doc) ∈ l →
      l.find? (fun p => p.1 = id) = some (id, doc) := by
  intro l
  induction l with
  | nil =>
    intro id doc _ hmem
    simp at hmem
  | cons hd tl ih =>
    intro id doc hnd hmem
    rcases List.mem_cons.mp hmem with rfl | hmem2
    · simp [List.find?]
    · rw [List.map_cons] at hnd
      obtain ⟨hnotin, hndtl⟩ := List.nodup_cons.mp hnd
      have hid : id ∈ tl.map Prod.fst :=
        List.mem_map.mpr ⟨(id, doc), hmem2, rfl⟩
      have hne : ¬hd.1 = id := fun he => hnotin (he ▸ hid)
      rw [List.find?_cons_of_neg _ (by simpa using hne)]
      exact ih id doc hndtl hmem2

/-- A `lookupDoc` hit is a member of the active partition. -/
theorem mem_of_lookupDoc {st : SessionStore} {id : String} {doc : Doc}
    (h : lookupDoc st id = some doc) : (id, doc) ∈ st.active := by
  simp only [lookupDoc, Option.map_eq_some'] at h
  obtain ⟨p, hp, hsnd⟩ := h
  have hmem := List.mem_of_find?_eq_some hp
  have hfst : p.1 = id := by
    have := List.find?_some hp
    simpa using this
  have : p = (id, doc) := by
    obtain ⟨p1, p2⟩ := p
    simp only at hfst hsnd
    rw [hfst, hsnd]
  rwa [this] at hmem

/-- Inversion of a successful `load_session`: the active document exists and
deserializes to the returned session. -/
theorem load_session_ok_some {st : SessionStore} {id : String}
    {s : WorkflowSession} (h : load_session st id = .ok (some s)) :
    ∃ d : SessionDoc, lookupDoc st id = some (.good d) ∧
      s = WorkflowSession.from_dict d := by
  rcases hl : lookupDoc st id with _ | doc
  · simp [load_session, hl] at h
  · rcases doc with _ | _ | _ | d <;>
      simp [load_session, hl, parseDoc, caughtByLoadSession] at h
    exact ⟨d, rfl, h.symm⟩

/-- Archiving one id keeps every other id's active entry. -/
theorem mem_active_archive_of_ne {st : SessionStore} {id j : String}
    {doc : Doc} (h : (id, doc) ∈ st.active) (hne : ¬id = j) :
    (id, doc) ∈ (archive_session st j).2.active := by
  rcases hl : lookupDoc st j with _ | d
  · simpa [archive_session, hl] using h
  · simp only [archive_session, hl]
    exact List.mem_filter.mpr ⟨h, by simpa using hne⟩

/-- The cleanup loop never archives (nor reports) an id that no listed
session carries, and keeps its active entry. -/
theorem cleanupLoop_preserves (now : Int) (id : String) (doc : Doc) :
    ∀ (sessions : List WorkflowSession) (acc : List String)
      (st : SessionStore),
      (∀ s ∈ sessions, ¬s.session_id = id) → id ∉ acc →
      (id, doc) ∈ st.active →
      id ∉ (cleanupLoop now sessions acc st).1 ∧
        (id, doc) ∈ (cleanupLoop now sessions acc st).2.active := by
  intro sessions
  induction sessions with
  | nil =>
    intro acc st _ hacc hmem
    exact ⟨hacc, hmem⟩
  | cons s rest ih =>
    intro acc st hneq hacc hmem
    have hs := hneq s (List.mem_cons_self _ _)
    have hrest : ∀ t ∈ rest, ¬t.session_id = id := fun t ht =>
      hneq t (List.mem_cons_of_mem _ ht)
    by_cases harch : should_auto_archive now s
    · simp only [cleanupLoop, harch, if_pos]
      refine ih (acc ++ [s.session_id]) _ hrest ?_ ?_
      · intro hx
        rcases List.mem_append.mp hx with hx | hx
        · exact hacc hx
        · exact hs (List.mem_singleton.mp hx).symm
      · exact mem_active_archive_of_ne hmem fun he => hs he.symm
    · simp only [cleanupLoop, harch, if_neg, ite_false]
      exact ih acc st hrest hacc hmem

/-- C10: `cleanup_stale_sessions` archives only sessions that deserialize and
are not complete.  In a store with distinct file ids whose documents carry
their own file id, an active document holding a complete session stays in the
active partition and its id is absent from the returned list, no matter how
old the session is; and no alert of `check_session_health` carries that
session's id. -/
theorem c10_cleanup_spares_complete :
    ∀ (now : Int) (st : SessionStore) (id : String) (d : SessionDoc)
      (ids : List String) (st' : SessionStore),
      (st.active.map Prod.fst).Nodup →
      (∀ p ∈ st.active, ∀ dd : SessionDoc, p.2 = Doc.good dd →
          dd.session_id = p.1) →
      (id, Doc.good d) ∈ st.active →
      (WorkflowSession.from_dict d).is_complete = true →
      cleanup_stale_sessions now st = .ok (ids, st') →
      (id ∉ ids ∧ (id, Doc.good d) ∈ st'.active) ∧
        (∀ alerts, check_session_health now st = .ok alerts →
            ∀ a ∈ alerts, ¬a.session_id = id) := by
  intro now st id d ids st' hnd hnames hmem hcomp hclean
  rcases hga : get_active_sessions st with e | sessions
  · simp [cleanup_stale_sessions, hga, Bind.bind, Except.bind] at hclean
  · have hneq : ∀ s ∈ sessions, ¬s.session_id = id := by
      intro s hs hseq
      obtain ⟨hnc, i, _, hload⟩ :=
        collectActive_not_complete st _ sessions hga s hs
      obtain ⟨d2, hlk, rfl⟩ := load_session_ok_some hload
      have hmem2 := mem_of_lookupDoc hlk
      have hd2id : d2.session_id = i := hnames (i, Doc.good d2) hmem2 d2 rfl
      have hi_id : i = id := by
        have : (WorkflowSession.from_dict d2).session_id = d2.session_id := rfl
        rw [this, hd2id] at hseq
        exact hseq
      subst hi_id
      have h1 := find?_eq_of_mem_nodup st.active i (Doc.good d) hnd hmem
      have h2 : lookupDoc st i = some (Doc.good d) := by
        simp [lookupDoc, h1]
      rw [h2] at hlk
      have hd2 : d = d2 := by
        have h3 := hlk
        simp only [Option.some.injEq, Doc.good.injEq] at h3
        exact h3
      subst hd2
      rw [hcomp] at hnc
      exact Bool.noConfusion hnc
    constructor
    · simp only [cleanup_stale_sessions, hga, Bind.bind, Except.bind,
        Pure.pure, Except.pure] at hclean
      have hpair : cleanupLoop now sessions [] st = (ids, st') := by
        simpa using hclean
      have := cleanupLoop_preserves now id (Doc.good d) sessions [] st hneq
        (by simp) hmem
      rw [hpair] at this
      exact this
    · intro alerts hch a ha
      rw [check_session_health_ok hga] at hch
      have halerts : sessions.flatMap (sessionHealthAlerts now) = alerts := by
        simpa using hch
      subst halerts
      obtain ⟨s, hs, ha2⟩ := List.mem_flatMap.mp ha
      rw [sessionHealthAlerts_session_id now s a ha2]
      exact hneq s hs

/-- A fully complete session (its only frame past its last step). -/
def demoCompleteSession : WorkflowSession :=
  { session_id := "c1", prompt := "p",
    workflow_stack :=
      [{ workflow_name := "W", steps := ["x"], current_step := 1,
         context := [] }],
    created_at := 0, last_accessed := 0,
    session_config := some SessionConfig.default }

/-- An old, not complete session eligible for auto-archiving. -/
def demoOldSession : WorkflowSession :=
  { session_id := "o1", prompt := "p",
    workflow_stack :=
      [{ workflow_name := "V", steps := ["y"], current_step := 0,
         context := [] }],
    created_at := 0, last_accessed := 0,
    session_config := some SessionConfig.default }

/-- Store holding the complete session and the old incomplete one. -/
def demoC10Store : SessionStore :=
  { active := [("c1", Doc.good demoCompleteSession.to_dict),
               ("o1", Doc.good demoOldSession.to_dict)],
    archive := [] }

/-- The store after `cleanup_stale_sessions` at time 30000: the old session
is archived, the complete one stays active. -/
def demoC10StoreAfter : SessionStore :=
  { active := [("c1", Doc.good demoCompleteSession.to_dict)],
    archive := [("o1", Doc.good demoOldSession.to_dict)] }

/-- Witness for C10 at a concrete input: cleaning up the two-document store
at a time past the age threshold archives only the old incomplete session;
the complete session's id is not reported and its document stays active. -/
theorem c10_cleanup_spares_complete_witness :
    "c1" ∉ ["o1"] ∧
      ("c1", Doc.good demoCompleteSession.to_dict) ∈
        demoC10StoreAfter.active :=
  (c10_cleanup_spares_complete 30000 demoC10Store "c1"
    demoCompleteSession.to_dict ["o1"] demoC10StoreAfter
    (by decide)
    (by
      intro p hp dd hdd
      rcases List.mem_cons.mp hp with rfl | hp2
      · injection hdd with h
        subst h
        rfl
      · rcases List.mem_cons.mp hp2 with rfl | hp3
        · injection hdd with h
          subst h
          rfl
        · simp at hp3)
    (by decide) (by decide) (by decide)).1

end Vibe
